import Mathlib

/-!
# go-auth-api: rate limiter and signup / login handlers

A shallow embedding of `internal/middleware/ratelimiter.go` and
`internal/handlers/auth_handler.go`, with the properties of the design
document stated over it.

Conventions of the embedding.

* Time is an explicit input: every call that reads the clock in Go
  (`time.Now()`) receives a reading in nanoseconds as a `Nat`.
* The token bucket of `golang.org/x/time/rate` keeps `float64` token counts; here they
  are rationals, so arithmetic is exact and the rounding of `float64` is not
  represented. The statements about the limiter below are those that do not turn on
  rounding: what `Allow` writes, which map entry a check touches, that a new bucket
  grants its first request, and runs whose token counts stay well away from a whole
  token.
* Mutable state (the IP map, the `users` collection) is passed explicitly.
* Everything the handlers obtain from outside the process (store outcomes,
  random salt, fresh object id, environment variables) is an explicit input.
-/

namespace GoAuthApi

/-! ## The token bucket of `golang.org/x/time/rate` -/

/-- Nanoseconds per second, the value of `time.Second`. -/
def second : Nat := 1000000000

/-- The fields of `rate.Limiter` that `Allow` reads and writes: `limit` in tokens per
second, `burst`, the current `tokens` and the time `last` of the latest update. -/
structure Limiter where
  limit : ℚ
  burst : Nat
  tokens : ℚ
  last : Nat
deriving DecidableEq

/-- The constructor `rate.NewLimiter(r, b)`: a bucket of size `b`, initially full. -/
def NewLimiter (r : ℚ) (b : Nat) : Limiter :=
  { limit := r, burst := b, tokens := b, last := 0 }

/-- The conversion `Limit.tokensFromDuration`: tokens accumulated over `d` nanoseconds. -/
def tokensFromDuration (limit : ℚ) (d : Nat) : ℚ :=
  if limit ≤ 0 then 0 else (d : ℚ) / second * limit

/-- The conversion `Limit.durationFromTokens`: whole nanoseconds needed to accumulate
`tokens` (the conversion to `time.Duration` truncates); `none` is `InfDuration`. -/
def durationFromTokens (limit : ℚ) (tokens : ℚ) : Option Int :=
  if limit ≤ 0 then none else some ⌊tokens / limit * second⌋

/-- The method `Limiter.advance`: the token count at time `t`, capped at `burst`.
A reading before `last` counts as no time elapsed. -/
def Limiter.advance (lim : Limiter) (t : Nat) : ℚ :=
  let last := if t < lim.last then t else lim.last
  let elapsed := t - last
  let delta := tokensFromDuration lim.limit elapsed
  let tokens := lim.tokens + delta
  if (lim.burst : ℚ) < tokens then (lim.burst : ℚ) else tokens

/-- The method `Limiter.reserveN(t, n, 0)` for a finite positive limit, as used by
`AllowN`: the decision and the limiter afterwards. The state is written only when the
reservation is granted. -/
def Limiter.reserveN (lim : Limiter) (t : Nat) (n : Nat) : Bool × Limiter :=
  let tokens := lim.advance t - n
  let waitDuration : Option Int :=
    if tokens < 0 then durationFromTokens lim.limit (-tokens) else some 0
  let ok := decide (n ≤ lim.burst) &&
    (match waitDuration with
     | some w => decide (w ≤ 0)
     | none => false)
  if ok then (true, { lim with last := t, tokens := tokens }) else (false, lim)

/-- The method `Limiter.Allow()`, that is `AllowN(time.Now(), 1)`, at clock reading `now`. -/
def Limiter.Allow (lim : Limiter) (now : Nat) : Bool × Limiter :=
  lim.reserveN now 1

/-! ## `internal/middleware/ratelimiter.go` -/

/-- The struct `IPRateLimiter`: the map from IP address to its limiter, with the rate
`r` and burst `b` given to every new limiter. The map holds pointers in Go; here it holds
the limiter states, written back after every use. The mutex is not represented: calls
are executed one at a time. -/
structure IPRateLimiter where
  ips : String → Option Limiter
  r : ℚ
  b : Nat

/-- The constructor `NewIPRateLimiter(r, b)`: an empty map. -/
def NewIPRateLimiter (r : ℚ) (b : Nat) : IPRateLimiter :=
  { ips := fun _ => none, r := r, b := b }

/-- The method `AddIP`: create a new limiter and store it under `ip`. -/
def IPRateLimiter.AddIP (i : IPRateLimiter) (ip : String) : Limiter × IPRateLimiter :=
  let limiter := NewLimiter i.r i.b
  (limiter, { i with ips := Function.update i.ips ip (some limiter) })

/-- The method `GetLimiter`: the limiter stored for `ip`, created by `AddIP` when absent. -/
def IPRateLimiter.GetLimiter (i : IPRateLimiter) (ip : String) : Limiter × IPRateLimiter :=
  match i.ips ip with
  | none => i.AddIP ip
  | some limiter => (limiter, i)

/-- The package variable `limiter = NewIPRateLimiter(rate.Limit(5)/60, 5)`. -/
def limiter : IPRateLimiter := NewIPRateLimiter (5 / 60) 5

/-- A JSON value of a response body: a string or a timestamp. -/
inductive JsonValue where
  | str (s : String)
  | time (t : Nat)
deriving DecidableEq

/-- An HTTP response written by `c.JSON` / `c.AbortWithStatusJSON`: the status code and
the fields of the JSON object in the body. -/
structure Response where
  status : Nat
  body : List (String × JsonValue)
deriving DecidableEq

/-- The body `gin.H{"error": msg}`. -/
def errorBody (msg : String) : List (String × JsonValue) := [("error", JsonValue.str msg)]

/-- The first two statements of the middleware handler: `limiter.GetLimiter(c.ClientIP())`
followed by `limiter.Allow()` at clock reading `now`. Returns the decision and the
package-level limiter afterwards (the limiter of `ip` is mutated through its pointer). -/
def allowIP (L : IPRateLimiter) (ip : String) (now : Nat) : Bool × IPRateLimiter :=
  let (lim, L1) := L.GetLimiter ip
  let (ok, lim1) := lim.Allow now
  (ok, { L1 with ips := Function.update L1.ips ip (some lim1) })

/-- The handler returned by `RateLimiterMiddleware()`, in front of a next handler `next`
acting on a state `σ`: abort with 429 when the limiter refuses, else `c.Next()`. -/
def RateLimiterMiddleware {σ : Type} (next : σ → Response × σ) (L : IPRateLimiter)
    (clientIP : String) (now : Nat) (s : σ) : Response × IPRateLimiter × σ :=
  let (ok, L1) := allowIP L clientIP now
  if !ok then
    (⟨429, errorBody "Too many requests. Please try again later."⟩, L1, s)
  else
    let (resp, s1) := next s
    (resp, L1, s1)

/-- A request reaching the middleware: the client IP and the clock reading when
`Allow` runs. -/
structure Req where
  ip : String
  time : Nat
deriving DecidableEq

/-- The decisions of the middleware on a sequence of requests, with the limiter afterwards. -/
def runRequests (L : IPRateLimiter) : List Req → List Bool × IPRateLimiter
  | [] => ([], L)
  | q :: qs =>
    let (ok, L1) := allowIP L q.ip q.time
    let (oks, L2) := runRequests L1 qs
    (ok :: oks, L2)

/-- The decisions of one limiter on a sequence of clock readings. -/
def runLimiter (lim : Limiter) : List Nat → List Bool × Limiter
  | [] => ([], lim)
  | t :: ts =>
    let (ok, lim1) := lim.Allow t
    let (oks, lim2) := runLimiter lim1 ts
    (ok :: oks, lim2)

/-- The decisions that `runRequests` took on the requests of `ip`, in order. -/
def decisionsFor (ip : String) (qs : List Req) (oks : List Bool) : List Bool :=
  ((qs.zip oks).filter (fun p => p.1.ip == ip)).map Prod.snd

/-! ## `internal/models/user.go` and the `users` collection -/

/-- The type `primitive.ObjectID`, by its hexadecimal rendering. -/
abbrev ObjectID := String

/-- The struct `models.User`. `Password` holds the bcrypt hash. -/
structure User where
  ID : ObjectID
  Name : String
  Email : String
  Password : String
  CreatedAt : Nat
  UpdatedAt : Nat
deriving DecidableEq

/-- The JSON encoding of a `models.User` by its `json` tags: `Password` is tagged `-`
and is left out. -/
def User.toJSON (u : User) : List (String × JsonValue) :=
  [("id", JsonValue.str u.ID), ("name", JsonValue.str u.Name), ("email", JsonValue.str u.Email),
   ("createdAt", JsonValue.time u.CreatedAt), ("updatedAt", JsonValue.time u.UpdatedAt)]

/-- The call `collection.CountDocuments(ctx, bson.M{"email": email})` on the documents
`users`; `fails` says that the driver returns an error (the 10 second deadline
included), and the result is then `none`. -/
def CountDocuments (users : List User) (email : String) (fails : Bool) : Option Nat :=
  if fails then none else some (users.countP (fun u => u.Email == email))

/-- The call `collection.InsertOne(ctx, newUser)`: the collection afterwards, or `none`
when the driver returns an error, in which case nothing is written. -/
def InsertOne (users : List User) (newUser : User) (fails : Bool) : Option (List User) :=
  if fails then none else some (users ++ [newUser])

/-- The outcomes of `collection.FindOne(ctx, filter).Decode(&user)`: a decoded document,
the error `mongo.ErrNoDocuments`, or another driver error. -/
inductive FindResult where
  | found (u : User)
  | noDocuments
  | storeError
deriving DecidableEq

/-- The call `collection.FindOne(ctx, bson.M{"email": email}).Decode(&user)`. -/
def FindOne (users : List User) (email : String) (fails : Bool) : FindResult :=
  if fails then FindResult.storeError
  else match users.find? (fun u => u.Email == email) with
    | some u => FindResult.found u
    | none => FindResult.noDocuments

/-! ## `internal/handlers/auth_handler.go` -/

/-- The claims `jwt.MapClaims{"id", "email", "exp"}` of a token. -/
structure Claims where
  id : ObjectID
  email : String
  exp : Nat
deriving DecidableEq

/-- The library functions the handlers call, as parameters: the `email` rule of the
validator, `bcrypt.GenerateFromPassword` at `bcrypt.DefaultCost` (with the random salt as
an argument; `none` is an error), `bcrypt.CompareHashAndPassword` (`true` is a nil
error) and `jwt.NewWithClaims(jwt.SigningMethodHS256, claims).SignedString(secret)`.
Two facts of the libraries come with them: a hash that `GenerateFromPassword` returned
verifies against its password, and signing with a non-empty secret returns a non-empty
token. -/
structure Deps where
  isEmail : String → Bool
  GenerateFromPassword : String → Nat → Option String
  CompareHashAndPassword : String → String → Bool
  SignedString : Claims → String → Option String
  compare_generated : ∀ pw salt h,
    GenerateFromPassword pw salt = some h → CompareHashAndPassword h pw = true
  signed_nonempty : ∀ c secret, secret ≠ "" →
    ∃ tok, SignedString c secret = some tok ∧ tok ≠ ""

/-- The struct `SignUpInput`. -/
structure SignUpInput where
  Name : String
  Email : String
  Password : String
deriving DecidableEq

/-- The struct `LoginInput`. -/
structure LoginInput where
  Email : String
  Password : String
deriving DecidableEq

/-- The first rule that a string fails among `required,min=lo` and, when given,
`max=hi`; lengths are counted in characters. -/
def requiredMinMax (s : String) (lo : Nat) (hi : Option Nat) : Option String :=
  if s = "" then some "required"
  else if s.length < lo then some "min"
  else match hi with
    | some h => if h < s.length then some "max" else none
    | none => none

/-- The first rule that a string fails among `email,required`. -/
def emailRequired (D : Deps) (s : String) : Option String :=
  if !D.isEmail s then some "email"
  else if s = "" then some "required"
  else none

/-- The first rule that a string fails for the tag `required`. -/
def required (s : String) : Option String :=
  if s = "" then some "required" else none

/-- The failed fields of `validate.Struct(&input)` for a `SignUpInput`, in field order,
each with the rule it failed. -/
def SignUpInput.fieldErrors (D : Deps) (i : SignUpInput) : List (String × String) :=
  (match requiredMinMax i.Name 2 (some 100) with
    | some tag => [("Name", tag)] | none => []) ++
  (match emailRequired D i.Email with
    | some tag => [("Email", tag)] | none => []) ++
  (match requiredMinMax i.Password 6 none with
    | some tag => [("Password", tag)] | none => [])

/-- The failed fields of `validate.Struct(&input)` for a `LoginInput`. -/
def LoginInput.fieldErrors (D : Deps) (i : LoginInput) : List (String × String) :=
  (match emailRequired D i.Email with
    | some tag => [("Email", tag)] | none => []) ++
  (match required i.Password with
    | some tag => [("Password", tag)] | none => [])

/-- The text of a validation error: one line per failed field. -/
def validationMessage (structName : String) (errs : List (String × String)) : String :=
  String.intercalate "\n" (errs.map (fun e =>
    "Key: \x27" ++ structName ++ "." ++ e.1 ++ "\x27 Error:Field validation for \x27" ++ e.1 ++
      "\x27 failed on the \x27" ++ e.2 ++ "\x27 tag"))

/-- What a `SignUp` call takes from outside: whether `CountDocuments` fails, the salt of
the hash, the value of `primitive.NewObjectID()`, the two readings of `time.Now()` and
whether `InsertOne` fails. -/
structure SignUpEnv where
  countFails : Bool
  salt : Nat
  newID : ObjectID
  createdAt : Nat
  updatedAt : Nat
  insertFails : Bool
deriving DecidableEq

/-- What a `Login` call takes from outside: whether `FindOne` fails with a driver error,
the value of `os.Getenv("JWT_SECRET")` (empty when unset) and the reading of
`time.Now()` in seconds. -/
structure LoginEnv where
  findFails : Bool
  jwtSecret : String
  nowUnix : Nat
deriving DecidableEq

/-- The handler `SignUp`. `body` is the result of `c.ShouldBindJSON(&input)`: the bound
input, or the text of the binding error. Returns the response and the collection
afterwards. -/
def SignUp (D : Deps) (users : List User) (body : Except String SignUpInput)
    (env : SignUpEnv) : Response × List User :=
  match body with
  | .error err => (⟨400, errorBody err⟩, users)
  | .ok input =>
    match input.fieldErrors D with
    | e :: es => (⟨400, errorBody (validationMessage "SignUpInput" (e :: es))⟩, users)
    | [] =>
      match CountDocuments users input.Email env.countFails with
      | none => (⟨500, errorBody "Error checking for existing user"⟩, users)
      | some count =>
        if count > 0 then
          (⟨409, errorBody "A user with this email already exists"⟩, users)
        else
          match D.GenerateFromPassword input.Password env.salt with
          | none => (⟨500, errorBody "Failed to hash password"⟩, users)
          | some hashedPassword =>
            let newUser : User :=
              { ID := env.newID, Name := input.Name, Email := input.Email,
                Password := hashedPassword, CreatedAt := env.createdAt,
                UpdatedAt := env.updatedAt }
            match InsertOne users newUser env.insertFails with
            | none => (⟨500, errorBody "Failed to create user"⟩, users)
            | some users1 => (⟨201, newUser.toJSON⟩, users1)

/-- The handler `Login`. The collection is only read. -/
def Login (D : Deps) (users : List User) (body : Except String LoginInput)
    (env : LoginEnv) : Response :=
  match body with
  | .error err => ⟨400, errorBody err⟩
  | .ok input =>
    match input.fieldErrors D with
    | e :: es => ⟨400, errorBody (validationMessage "LoginInput" (e :: es))⟩
    | [] =>
      match FindOne users input.Email env.findFails with
      | .noDocuments => ⟨401, errorBody "Invalid email or password"⟩
      | .storeError => ⟨401, errorBody "Invalid email or password"⟩
      | .found user =>
        if !D.CompareHashAndPassword user.Password input.Password then
          ⟨401, errorBody "Invalid email or password"⟩
        else if env.jwtSecret = "" then
          ⟨500, errorBody "Server configuration error: JWT secret not set"⟩
        else
          let claims : Claims :=
            { id := user.ID, email := user.Email, exp := env.nowUnix + 24 * 3600 }
          match D.SignedString claims env.jwtSecret with
          | none => ⟨500, errorBody "Failed to create authentication token"⟩
          | some tokenString => ⟨200, [("token", JsonValue.str tokenString)]⟩

/-- The route `v1.POST("/signup", middleware.RateLimiterMiddleware(), handlers.SignUp(..))`
of `main.go`: the middleware in front of the signup handler. -/
def signupRoute (D : Deps) (L : IPRateLimiter) (users : List User) (clientIP : String)
    (now : Nat) (body : Except String SignUpInput) (env : SignUpEnv) :
    Response × IPRateLimiter × List User :=
  RateLimiterMiddleware (fun u => SignUp D u body env) L clientIP now users

/-! ## Two `SignUp` calls in flight -/

/-- Where one `SignUp` call stands between its two store operations: not yet started,
waiting to insert the user it has built, or finished with a response. -/
inductive SignUpTask where
  | start (body : Except String SignUpInput) (env : SignUpEnv)
  | inserting (newUser : User) (env : SignUpEnv)
  | done (resp : Response)

/-- One scheduling step of a `SignUp` call on the current collection. From `start` the
call runs up to and including `CountDocuments` and the hashing; from `inserting` it
runs `InsertOne` and writes the response. Each store operation is atomic. -/
def SignUpTask.step (D : Deps) (users : List User) : SignUpTask → SignUpTask × List User
  | .start body env =>
    match body with
    | .error err => (.done ⟨400, errorBody err⟩, users)
    | .ok input =>
      match input.fieldErrors D with
      | e :: es => (.done ⟨400, errorBody (validationMessage "SignUpInput" (e :: es))⟩, users)
      | [] =>
        match CountDocuments users input.Email env.countFails with
        | none => (.done ⟨500, errorBody "Error checking for existing user"⟩, users)
        | some count =>
          if count > 0 then
            (.done ⟨409, errorBody "A user with this email already exists"⟩, users)
          else
            match D.GenerateFromPassword input.Password env.salt with
            | none => (.done ⟨500, errorBody "Failed to hash password"⟩, users)
            | some hashedPassword =>
              (.inserting
                { ID := env.newID, Name := input.Name, Email := input.Email,
                  Password := hashedPassword, CreatedAt := env.createdAt,
                  UpdatedAt := env.updatedAt } env, users)
  | .inserting newUser env =>
    match InsertOne users newUser env.insertFails with
    | none => (.done ⟨500, errorBody "Failed to create user"⟩, users)
    | some users1 => (.done ⟨201, newUser.toJSON⟩, users1)
  | .done resp => (.done resp, users)

/-- Two `SignUp` calls and the collection they share, run under a schedule: `false`
lets the first call take its next step, `true` the second. -/
def runSchedule (D : Deps) :
    List Bool → SignUpTask × SignUpTask × List User → SignUpTask × SignUpTask × List User
  | [], s => s
  | false :: rest, (a, b, users) =>
    let (a1, users1) := a.step D users
    runSchedule D rest (a1, b, users1)
  | true :: rest, (a, b, users) =>
    let (b1, users1) := b.step D users
    runSchedule D rest (a, b1, users1)

/-! ## Notions used in the statements -/

/-- The limiter that `GetLimiter` hands out for `ip`. -/
def limiterOf (L : IPRateLimiter) (ip : String) : Limiter := (L.GetLimiter ip).1

/-- No two users of the collection share an email. -/
def UniqueEmails (users : List User) : Prop := (users.map (fun u => u.Email)).Nodup

instance (users : List User) : Decidable (UniqueEmails users) := by
  unfold UniqueEmails; infer_instance

/-- A `SignUpInput` that passes `validate.Struct`. -/
def SignUpInput.Valid (D : Deps) (i : SignUpInput) : Prop := i.fieldErrors D = []

instance (D : Deps) (i : SignUpInput) : Decidable (i.Valid D) := by
  unfold SignUpInput.Valid; infer_instance

/-- A `LoginInput` that passes `validate.Struct`. -/
def LoginInput.Valid (D : Deps) (i : LoginInput) : Prop := i.fieldErrors D = []

instance (D : Deps) (i : LoginInput) : Decidable (i.Valid D) := by
  unfold LoginInput.Valid; infer_instance

/-- An instance of the library functions for evaluating the handlers on examples. It keeps
what the handlers depend on: an address needs an `@`; `GenerateFromPassword` returns an
error for a password of more than 72 bytes (`bcrypt.ErrPasswordTooLong`) and otherwise a
hash that `CompareHashAndPassword` accepts for that password only; signing with HS256
succeeds and yields a non-empty string. -/
def exampleDeps : Deps where
  isEmail := fun s => s.data.contains (Char.ofNat 64)
  GenerateFromPassword := fun pw _ =>
    if 72 < pw.utf8ByteSize then none else some ("$2a$10$" ++ pw)
  CompareHashAndPassword := fun h pw => h == "$2a$10$" ++ pw
  SignedString := fun c secret => some ("eyJ." ++ c.email ++ "." ++ secret)
  compare_generated := by
    intro pw salt h hg
    simp only at hg
    split_ifs at hg
    cases hg
    simp
  signed_nonempty := by
    intro c secret _
    refine ⟨_, rfl, ?_⟩
    intro h
    have h2 := congrArg String.length h
    simp only [String.length_append] at h2
    have h3 : ("eyJ." : String).length = 4 := by decide
    have h4 : ("" : String).length = 0 := by decide
    omega

/-- Five requests of one client at time 0 and a sixth 30 seconds later. -/
def sixInThirty : List Req :=
  [⟨"10.0.0.1", 0⟩, ⟨"10.0.0.1", 0⟩, ⟨"10.0.0.1", 0⟩, ⟨"10.0.0.1", 0⟩, ⟨"10.0.0.1", 0⟩,
   ⟨"10.0.0.1", 30000000000⟩]

/-- Five requests of one client at time 0. -/
def fiveAtOnce : List Req :=
  [⟨"10.0.0.1", 0⟩, ⟨"10.0.0.1", 0⟩, ⟨"10.0.0.1", 0⟩, ⟨"10.0.0.1", 0⟩, ⟨"10.0.0.1", 0⟩]

/-- The input of the design document: Ann. -/
def ann : SignUpInput := { Name := "Ann", Email := "ann@x.com", Password := "secret1" }

/-- Ann with a password of 73 characters. -/
def annLongPassword : SignUpInput :=
  { Name := "Ann", Email := "ann@x.com",
    Password := "aaaaaaaaaaaaaaaaaaaaaaaaaaaaaaaaaaaaaaaaaaaaaaaaaaaaaaaaaaaaaaaaaaaaaaaaa" }

/-- Ann as a stored user. -/
def annUser : User :=
  { ID := "650000000000000000000001", Name := "Ann", Email := "ann@x.com",
    Password := "$2a$10$secret1", CreatedAt := 7, UpdatedAt := 7 }

/-- An environment in which the existing-user query fails. -/
def countFailsEnv : SignUpEnv :=
  { countFails := true, salt := 0, newID := "650000000000000000000002", createdAt := 9,
    updatedAt := 9, insertFails := false }

/-- A login of Ann with her password. -/
def annLogin : LoginInput := { Email := "ann@x.com", Password := "secret1" }

/-- A login environment in which `FindOne` fails with a driver error. -/
def findFailsEnv : LoginEnv := { findFails := true, jwtSecret := "k3y", nowUnix := 1700000000 }

/-- A login environment with a working store and a signing secret. -/
def okLoginEnv : LoginEnv := { findFails := false, jwtSecret := "k3y", nowUnix := 1700000000 }

/-- A login environment with a working store and no signing secret. -/
def noSecretEnv : LoginEnv := { findFails := false, jwtSecret := "", nowUnix := 1700000000 }

/-- An environment in which every store operation succeeds. -/
def okEnv (id : ObjectID) (t : Nat) : SignUpEnv :=
  { countFails := false, salt := 0, newID := id, createdAt := t, updatedAt := t,
    insertFails := false }

/-! ## The token bucket: one limiter -/

/-- A refusal never writes the limiter, whatever its state. -/
theorem Allow_false_state (lim : Limiter) (t : Nat) (h : (lim.Allow t).1 = false) :
    (lim.Allow t).2 = lim := by
  unfold Limiter.Allow Limiter.reserveN at h ⊢
  simp only at h ⊢
  split_ifs at h ⊢ <;> rfl

/-- Refilling a new bucket leaves it with its 5 tokens or more before the cap, so with at
least one whole token after it. -/
theorem NewLimiter_advance (now : Nat) : 1 ≤ (NewLimiter (5 / 60) 5).advance now := by
  have hd : (0 : ℚ) ≤ tokensFromDuration (5 / 60) (now - 0) := by
    unfold tokensFromDuration second
    split_ifs <;> positivity
  have h0 : (if now < 0 then now else 0) = 0 := if_neg (Nat.not_lt_zero now)
  unfold Limiter.advance NewLimiter
  simp only [h0]
  split_ifs with c
  · norm_num
  · push_cast
    linarith

/-- A limiter as `NewLimiter (5 / 60) 5` creates it grants its first request, whenever it
comes. -/
theorem NewLimiter_Allow (now : Nat) : ((NewLimiter (5 / 60) 5).Allow now).1 = true := by
  have h1 := NewLimiter_advance now
  have c : ¬ ((NewLimiter (5 / 60) 5).advance now - ((1 : Nat) : ℚ) < 0) := by
    push_cast; linarith
  unfold Limiter.Allow Limiter.reserveN
  simp only [c, if_false]
  simp [NewLimiter]

/-! ## The IP map -/

theorem limiterOf_none (L : IPRateLimiter) (ip : String) (h : L.ips ip = none) :
    limiterOf L ip = NewLimiter L.r L.b := by
  simp [limiterOf, IPRateLimiter.GetLimiter, IPRateLimiter.AddIP, h]

theorem limiterOf_some (L : IPRateLimiter) (ip : String) (lim : Limiter)
    (h : L.ips ip = some lim) : limiterOf L ip = lim := by
  simp [limiterOf, IPRateLimiter.GetLimiter, h]

theorem allowIP_fst (L : IPRateLimiter) (ip : String) (t : Nat) :
    (allowIP L ip t).1 = ((limiterOf L ip).Allow t).1 := by
  unfold allowIP limiterOf; rfl

theorem allowIP_r (L : IPRateLimiter) (ip : String) (t : Nat) : (allowIP L ip t).2.r = L.r := by
  unfold allowIP IPRateLimiter.GetLimiter IPRateLimiter.AddIP
  cases L.ips ip <;> rfl

theorem allowIP_b (L : IPRateLimiter) (ip : String) (t : Nat) : (allowIP L ip t).2.b = L.b := by
  unfold allowIP IPRateLimiter.GetLimiter IPRateLimiter.AddIP
  cases L.ips ip <;> rfl

theorem allowIP_ips_self (L : IPRateLimiter) (ip : String) (t : Nat) :
    (allowIP L ip t).2.ips ip = some ((limiterOf L ip).Allow t).2 := by
  unfold allowIP limiterOf
  simp

theorem allowIP_ips_other (L : IPRateLimiter) (ip b : String) (t : Nat) (h : b ≠ ip) :
    (allowIP L ip t).2.ips b = L.ips b := by
  unfold allowIP IPRateLimiter.GetLimiter IPRateLimiter.AddIP
  cases L.ips ip <;> simp [Function.update_noteq h]

theorem limiterOf_allowIP_self (L : IPRateLimiter) (ip : String) (t : Nat) :
    limiterOf (allowIP L ip t).2 ip = ((limiterOf L ip).Allow t).2 :=
  limiterOf_some _ _ _ (allowIP_ips_self L ip t)

theorem limiterOf_allowIP_other (L : IPRateLimiter) (ip b : String) (t : Nat) (h : b ≠ ip) :
    limiterOf (allowIP L ip t).2 b = limiterOf L b := by
  have e := allowIP_ips_other L ip b t h
  cases hb : L.ips b with
  | none =>
    rw [limiterOf_none L b hb, limiterOf_none _ b (by rw [e, hb]), allowIP_r, allowIP_b]
  | some lim =>
    rw [limiterOf_some L b lim hb, limiterOf_some _ b lim (by rw [e, hb])]

theorem runRequests_cons (L : IPRateLimiter) (q : Req) (qs : List Req) :
    runRequests L (q :: qs) =
      ((allowIP L q.ip q.time).1 :: (runRequests (allowIP L q.ip q.time).2 qs).1,
        (runRequests (allowIP L q.ip q.time).2 qs).2) := rfl

theorem runLimiter_cons (lim : Limiter) (t : Nat) (ts : List Nat) :
    runLimiter lim (t :: ts) =
      ((lim.Allow t).1 :: (runLimiter (lim.Allow t).2 ts).1,
        (runLimiter (lim.Allow t).2 ts).2) := rfl

/-- The decisions taken for one IP are those of its own limiter on its own requests. -/
theorem decisionsFor_eq_runLimiter (L : IPRateLimiter) (ip : String) (qs : List Req) :
    decisionsFor ip qs (runRequests L qs).1 =
      (runLimiter (limiterOf L ip)
        ((qs.filter (fun q => q.ip == ip)).map (fun q => q.time))).1 := by
  induction qs generalizing L with
  | nil => rfl
  | cons q qs ih =>
    rw [runRequests_cons]
    by_cases c : q.ip = ip
    · have hf : (q :: qs).filter (fun q => q.ip == ip) = q :: qs.filter (fun q => q.ip == ip) := by
        simp [c]
      rw [hf, List.map_cons, runLimiter_cons]
      have ih1 := ih (allowIP L q.ip q.time).2
      rw [c] at ih1 ⊢
      rw [limiterOf_allowIP_self] at ih1
      rw [← ih1, allowIP_fst]
      simp [decisionsFor, c]
    · have hf : (q :: qs).filter (fun q => q.ip == ip) = qs.filter (fun q => q.ip == ip) := by
        simp [c]
      rw [hf]
      have ih1 := ih (allowIP L q.ip q.time).2
      rw [limiterOf_allowIP_other L q.ip ip q.time (fun e => c e.symm)] at ih1
      rw [← ih1]
      simp [decisionsFor, c]

/-- When every request comes from `ip`, the decisions are those of its limiter. -/
theorem runRequests_single_ip (L : IPRateLimiter) (ip : String) (qs : List Req)
    (h : ∀ q ∈ qs, q.ip = ip) :
    (runRequests L qs).1 = (runLimiter (limiterOf L ip) (qs.map (fun q => q.time))).1 := by
  induction qs generalizing L with
  | nil => rfl
  | cons q qs ih =>
    have hq : q.ip = ip := h q (List.mem_cons_self _ _)
    rw [runRequests_cons, List.map_cons, runLimiter_cons,
      ih _ (fun p hp => h p (List.mem_cons_of_mem _ hp)), hq, limiterOf_allowIP_self, allowIP_fst]

theorem runRequests_r (L : IPRateLimiter) (qs : List Req) : (runRequests L qs).2.r = L.r := by
  induction qs generalizing L with
  | nil => rfl
  | cons q qs ih => rw [runRequests_cons]; simp only; rw [ih, allowIP_r]

theorem runRequests_b (L : IPRateLimiter) (qs : List Req) : (runRequests L qs).2.b = L.b := by
  induction qs generalizing L with
  | nil => rfl
  | cons q qs ih => rw [runRequests_cons]; simp only; rw [ih, allowIP_b]

/-! ## The middleware -/

theorem middleware_reject {σ : Type} (next : σ → Response × σ) (L : IPRateLimiter)
    (ip : String) (now : Nat) (s : σ) (h : (allowIP L ip now).1 = false) :
    RateLimiterMiddleware next L ip now s =
      (⟨429, errorBody "Too many requests. Please try again later."⟩,
        (allowIP L ip now).2, s) := by
  unfold RateLimiterMiddleware
  simp [h]

theorem middleware_pass {σ : Type} (next : σ → Response × σ) (L : IPRateLimiter)
    (ip : String) (now : Nat) (s : σ) (h : (allowIP L ip now).1 = true) :
    RateLimiterMiddleware next L ip now s = ((next s).1, (allowIP L ip now).2, (next s).2) := by
  unfold RateLimiterMiddleware
  simp [h]

/-- A refusal leaves the package-level limiter as it was, when new limiters are created
with the configured rate and burst: an address without a limiter is never refused, and
the limiter of a refused address is not written. -/
theorem allowIP_reject_state (L : IPRateLimiter) (hr : L.r = 5 / 60) (hb : L.b = 5)
    (ip : String) (now : Nat) (h : (allowIP L ip now).1 = false) :
    (allowIP L ip now).2 = L := by
  rw [allowIP_fst] at h
  cases hq : L.ips ip with
  | none =>
    exfalso
    rw [limiterOf_none L _ hq, hr, hb, NewLimiter_Allow now] at h
    exact Bool.noConfusion h
  | some lim =>
    have hl := limiterOf_some L ip lim hq
    rw [hl] at h
    have e := Allow_false_state lim now h
    unfold allowIP IPRateLimiter.GetLimiter
    simp only [hq, e]
    have : Function.update L.ips ip (some lim) = L.ips := by
      rw [← hq]; exact Function.update_eq_self ip L.ips
    rw [this]

/-! ## Rate limiter: the properties of the design document -/

/-- C2 fails on the code. Five signup requests of one client at time 0 and a sixth 30
seconds later all lie in one 60-second window, and all six are let through: after the
burst the bucket regains a token every 12 seconds, so the sixth request finds 2.5
tokens. The sixth, a signup of Ann, passes the middleware and is answered 201, not
429. -/
theorem C2_sixth_request_in_window_admitted :
    (∀ q ∈ sixInThirty, q.ip = "10.0.0.1" ∧ q.time < 60 * second) ∧
    (runRequests limiter sixInThirty).1 = [true, true, true, true, true, true] ∧
    (signupRoute exampleDeps (runRequests limiter fiveAtOnce).2 [] "10.0.0.1" 30000000000
      (.ok ann) (okEnv "650000000000000000000001" 7)).1.status = 201 := by
  refine ⟨by decide, ?_, ?_⟩
  · norm_num [sixInThirty, runRequests, allowIP, limiter, NewIPRateLimiter,
      IPRateLimiter.GetLimiter, IPRateLimiter.AddIP, Limiter.Allow, Limiter.reserveN,
      Limiter.advance, tokensFromDuration, durationFromTokens, NewLimiter, second]
  · have h : (allowIP (runRequests limiter fiveAtOnce).2 "10.0.0.1" 30000000000).1 = true := by
      norm_num [fiveAtOnce, runRequests, allowIP, limiter, NewIPRateLimiter,
        IPRateLimiter.GetLimiter, IPRateLimiter.AddIP, Limiter.Allow, Limiter.reserveN,
        Limiter.advance, tokensFromDuration, durationFromTokens, NewLimiter, second]
    unfold signupRoute
    rw [middleware_pass _ _ _ _ _ h]
    decide

/-- C9. Requests of different IPs do not interfere: a check for `a` leaves the bucket of
every other IP `b` as it was, and the decisions taken for `b` within any sequence of
requests are those taken when only the requests of `b` are made. A check that refuses,
in any state reached from the initial limiter, answers 429 and leaves the whole limiter
(the token count of the refused IP included) and the user collection as they were; the
next handler is not called, the outcome being the same for every next handler. -/
theorem C9_independence_and_silent_rejection :
    (∀ (L : IPRateLimiter) (a b : String) (now : Nat), a ≠ b →
      (allowIP L a now).2.ips b = L.ips b) ∧
    (∀ (L : IPRateLimiter) (b : String) (qs : List Req),
      decisionsFor b qs (runRequests L qs).1 =
        (runRequests L (qs.filter (fun q => q.ip == b))).1) ∧
    (∀ (pre : List Req) (ip : String) (now : Nat) (D : Deps) (users : List User)
      (body : Except String SignUpInput) (env : SignUpEnv),
      (allowIP (runRequests limiter pre).2 ip now).1 = false →
      signupRoute D (runRequests limiter pre).2 users ip now body env =
        (⟨429, errorBody "Too many requests. Please try again later."⟩,
          (runRequests limiter pre).2, users)) ∧
    (∀ (pre : List Req) (ip : String) (now : Nat) (σ : Type) (next : σ → Response × σ)
      (s : σ), (allowIP (runRequests limiter pre).2 ip now).1 = false →
      RateLimiterMiddleware next (runRequests limiter pre).2 ip now s =
        (⟨429, errorBody "Too many requests. Please try again later."⟩,
          (runRequests limiter pre).2, s)) := by
  refine ⟨?_, ?_, ?_, ?_⟩
  · intro L a b now hab
    exact allowIP_ips_other L a b now (fun e => hab e.symm)
  · intro L b qs
    rw [decisionsFor_eq_runLimiter,
      runRequests_single_ip L b (qs.filter (fun q => q.ip == b))
        (fun q hq => by simpa using (List.mem_filter.mp hq).2)]
  · intro pre ip now D users body env h
    unfold signupRoute
    rw [middleware_reject _ _ ip now users h,
      allowIP_reject_state _ (runRequests_r limiter pre) (runRequests_b limiter pre) ip now h]
  · intro pre ip now σ next s h
    rw [middleware_reject _ _ ip now s h,
      allowIP_reject_state _ (runRequests_r limiter pre) (runRequests_b limiter pre) ip now h]


/-- C9, at an input: after five requests at time 0 a sixth at time 0 is refused; it
changes neither the limiter nor the collection, and a check for one address leaves the
bucket of another address alone. -/
theorem C9_independence_and_silent_rejection_witness :
    "10.0.0.1" ≠ "10.0.0.2" ∧
    (allowIP (runRequests limiter fiveAtOnce).2 "10.0.0.1" 0).1 = false ∧
    (allowIP limiter "10.0.0.1" 0).2.ips "10.0.0.2" = limiter.ips "10.0.0.2" ∧
    signupRoute exampleDeps (runRequests limiter fiveAtOnce).2 [] "10.0.0.1" 0 (.ok ann)
        (okEnv "650000000000000000000001" 7) =
      (⟨429, errorBody "Too many requests. Please try again later."⟩,
        (runRequests limiter fiveAtOnce).2, []) := by
  have h : (allowIP (runRequests limiter fiveAtOnce).2 "10.0.0.1" 0).1 = false := by
    norm_num [fiveAtOnce, runRequests, allowIP, limiter, NewIPRateLimiter,
      IPRateLimiter.GetLimiter, IPRateLimiter.AddIP, Limiter.Allow, Limiter.reserveN,
      Limiter.advance, tokensFromDuration, durationFromTokens, NewLimiter, second]
  exact ⟨by decide, h,
    C9_independence_and_silent_rejection.1 limiter "10.0.0.1" "10.0.0.2" 0 (by decide),
    C9_independence_and_silent_rejection.2.2.1 fiveAtOnce "10.0.0.1" 0 exampleDeps []
      (.ok ann) (okEnv "650000000000000000000001" 7) h⟩

/-! ## Signup and login -/

theorem requiredMinMax_none (s : String) (lo : Nat) (hi : Option Nat)
    (h : requiredMinMax s lo hi = none) :
    s ≠ "" ∧ lo ≤ s.length ∧ ∀ m, hi = some m → s.length ≤ m := by
  unfold requiredMinMax at h
  split_ifs at h with c1 c2
  refine ⟨c1, Nat.le_of_not_lt c2, ?_⟩
  intro m hm
  subst hm
  simp only at h
  split_ifs at h with c3
  exact Nat.le_of_not_lt c3

theorem emailRequired_none (D : Deps) (s : String) (h : emailRequired D s = none) :
    D.isEmail s = true ∧ s ≠ "" := by
  unfold emailRequired at h
  split_ifs at h with c1 c2
  exact ⟨by simpa using c1, c2⟩

/-- What a valid `SignUpInput` satisfies. -/
theorem SignUpInput_valid_fields {D : Deps} {i : SignUpInput} (h : i.Valid D) :
    (i.Name ≠ "" ∧ 2 ≤ i.Name.length ∧ i.Name.length ≤ 100) ∧
    (D.isEmail i.Email = true ∧ i.Email ≠ "") ∧
    (i.Password ≠ "" ∧ 6 ≤ i.Password.length) := by
  unfold SignUpInput.Valid SignUpInput.fieldErrors at h
  have h1 : requiredMinMax i.Name 2 (some 100) = none := by
    cases c : requiredMinMax i.Name 2 (some 100) with
    | none => rfl
    | some tag => rw [c] at h; simp at h
  have h2 : emailRequired D i.Email = none := by
    cases c : emailRequired D i.Email with
    | none => rfl
    | some tag => rw [c] at h; simp at h
  have h3 : requiredMinMax i.Password 6 none = none := by
    cases c : requiredMinMax i.Password 6 none with
    | none => rfl
    | some tag => rw [c] at h; simp at h
  obtain ⟨a1, a2, a3⟩ := requiredMinMax_none _ _ _ h1
  obtain ⟨b1, b2, -⟩ := requiredMinMax_none _ _ _ h3
  exact ⟨⟨a1, a2, a3 100 rfl⟩, emailRequired_none D _ h2, ⟨b1, b2⟩⟩

theorem SignUp_invalid (D : Deps) (users : List User) (input : SignUpInput) (env : SignUpEnv)
    (h : ¬ input.Valid D) :
    ∃ msg, SignUp D users (.ok input) env = (⟨400, errorBody msg⟩, users) := by
  unfold SignUpInput.Valid at h
  cases c : input.fieldErrors D with
  | nil => exact absurd c h
  | cons e es => exact ⟨validationMessage "SignUpInput" (e :: es), by simp only [SignUp, c]⟩

/-- The outcome of `SignUp` on a valid input, by the store outcomes. -/
theorem SignUp_valid (D : Deps) (users : List User) (input : SignUpInput) (env : SignUpEnv)
    (h : input.Valid D) :
    SignUp D users (.ok input) env =
      match CountDocuments users input.Email env.countFails with
      | none => (⟨500, errorBody "Error checking for existing user"⟩, users)
      | some count =>
        if count > 0 then
          (⟨409, errorBody "A user with this email already exists"⟩, users)
        else
          match D.GenerateFromPassword input.Password env.salt with
          | none => (⟨500, errorBody "Failed to hash password"⟩, users)
          | some hashedPassword =>
            match InsertOne users
              { ID := env.newID, Name := input.Name, Email := input.Email,
                Password := hashedPassword, CreatedAt := env.createdAt,
                UpdatedAt := env.updatedAt } env.insertFails with
            | none => (⟨500, errorBody "Failed to create user"⟩, users)
            | some users1 =>
              (⟨201, User.toJSON
                { ID := env.newID, Name := input.Name, Email := input.Email,
                  Password := hashedPassword, CreatedAt := env.createdAt,
                  UpdatedAt := env.updatedAt }⟩, users1) := by
  unfold SignUpInput.Valid at h
  unfold SignUp
  simp only [h]

theorem countP_pos_iff (users : List User) (email : String) :
    0 < users.countP (fun u => u.Email == email) ↔ ∃ u ∈ users, u.Email = email := by
  rw [List.countP_pos_iff]
  simp

/-- C3. A signup input whose name has fewer than 2 or more than 100 characters, or whose
email is empty or not a valid address, or whose password has fewer than 6 characters, is
answered 400 with an `error` body; the collection is returned as it was, and the response
is the same for every collection and every outcome of the store operations, so the
store is not consulted. -/
theorem C3_validation_before_store (D : Deps) (users : List User) (input : SignUpInput)
    (env : SignUpEnv)
    (h : input.Name.length < 2 ∨ 100 < input.Name.length ∨ input.Email = "" ∨
      D.isEmail input.Email = false ∨ input.Password.length < 6) :
    (SignUp D users (.ok input) env).1.status = 400 ∧
    (∃ msg, (SignUp D users (.ok input) env).1.body = errorBody msg) ∧
    (SignUp D users (.ok input) env).2 = users ∧
    (∀ (users2 : List User) (env2 : SignUpEnv),
      (SignUp D users2 (.ok input) env2).1 = (SignUp D users (.ok input) env).1) := by
  have hv : ¬ input.Valid D := by
    intro hv
    obtain ⟨⟨-, a2, a3⟩, ⟨b1, b2⟩, ⟨-, c2⟩⟩ := SignUpInput_valid_fields hv
    rcases h with h | h | h | h | h
    · omega
    · omega
    · exact b2 h
    · rw [b1] at h; exact Bool.noConfusion h
    · omega
  unfold SignUpInput.Valid at hv
  have key : ∀ (us : List User) (en : SignUpEnv), SignUp D us (.ok input) en =
      (⟨400, errorBody (validationMessage "SignUpInput" (input.fieldErrors D))⟩, us) := by
    intro us en
    cases c : input.fieldErrors D with
    | nil => exact absurd c hv
    | cons e es => simp only [SignUp, c]
  refine ⟨by rw [key], ⟨_, by rw [key]⟩, by rw [key], ?_⟩
  intro users2 env2
  rw [key, key]

/-- C3, at the input of the design document: a signup with password `abc` is answered
400 and writes nothing. -/
theorem C3_validation_before_store_witness :
    (("Ann" : String).length < 2 ∨ 100 < ("Ann" : String).length ∨ ("ann@x.com" : String) = "" ∨
      exampleDeps.isEmail "ann@x.com" = false ∨ ("abc" : String).length < 6) ∧
    (SignUp exampleDeps [annUser] (.ok ⟨"Ann", "ann@x.com", "abc"⟩)
      (okEnv "650000000000000000000002" 9)).1.status = 400 ∧
    (SignUp exampleDeps [annUser] (.ok ⟨"Ann", "ann@x.com", "abc"⟩)
      (okEnv "650000000000000000000002" 9)).2 = [annUser] :=
  ⟨by decide,
   (C3_validation_before_store exampleDeps [annUser] ⟨"Ann", "ann@x.com", "abc"⟩
      (okEnv "650000000000000000000002" 9) (by decide)).1,
   (C3_validation_before_store exampleDeps [annUser] ⟨"Ann", "ann@x.com", "abc"⟩
      (okEnv "650000000000000000000002" 9) (by decide)).2.2.1⟩


theorem CountDocuments_zero_iff (users : List User) (email : String) (n : Nat)
    (h : CountDocuments users email false = some n) :
    ¬ (n > 0) ↔ ∀ v ∈ users, v.Email ≠ email := by
  simp only [CountDocuments, Bool.false_eq_true, if_false, Option.some.injEq] at h
  rw [← h, gt_iff_lt, countP_pos_iff]
  push_neg
  rfl

/-- The two ways a `SignUp` call ends: without touching the collection and with a
status other than 201, or with 201 after appending the one user built from the input,
whose email was not in the collection. -/
theorem SignUp_cases (D : Deps) (users : List User) (body : Except String SignUpInput)
    (env : SignUpEnv) :
    ((SignUp D users body env).2 = users ∧ (SignUp D users body env).1.status ≠ 201) ∨
    (∃ input hashed, body = .ok input ∧ input.Valid D ∧
      (∀ v ∈ users, v.Email ≠ input.Email) ∧
      D.GenerateFromPassword input.Password env.salt = some hashed ∧
      env.countFails = false ∧ env.insertFails = false ∧
      SignUp D users body env =
        (⟨201, User.toJSON ⟨env.newID, input.Name, input.Email, hashed, env.createdAt,
            env.updatedAt⟩⟩,
          users ++ [⟨env.newID, input.Name, input.Email, hashed, env.createdAt,
            env.updatedAt⟩])) := by
  cases body with
  | error err => left; simp [SignUp]
  | ok input =>
    by_cases hv : input.Valid D
    · rw [SignUp_valid D users input env hv]
      cases hc : env.countFails with
      | true => left; simp [CountDocuments]
      | false =>
        cases hcount : CountDocuments users input.Email false with
        | none => simp [CountDocuments] at hcount
        | some n =>
          have hz := CountDocuments_zero_iff users input.Email n hcount
          by_cases hn : n > 0
          · left; simp [hn]
          · cases hg : D.GenerateFromPassword input.Password env.salt with
            | none => left; simp [hn]
            | some hashed =>
              cases hi : env.insertFails with
              | true => left; simp [hn, InsertOne]
              | false =>
                right
                refine ⟨input, hashed, rfl, hv, hz.mp hn, hg, rfl, rfl, ?_⟩
                simp [hn, InsertOne]
    · obtain ⟨msg, e⟩ := SignUp_invalid D users input env hv
      left; rw [e]; simp

/-- C4 as stated fails in one case: a valid signup whose email belongs to a stored user
is answered 500, not 409, when the existing-user query itself fails. -/
theorem C4_counterexample :
    ann.Valid exampleDeps ∧ (∃ u ∈ [annUser], u.Email = ann.Email) ∧
    UniqueEmails [annUser] ∧
    SignUp exampleDeps [annUser] (.ok ann) countFailsEnv =
      (⟨500, errorBody "Error checking for existing user"⟩, [annUser]) := by
  decide

/-- C4, amended. Under sequential signups email uniqueness is an invariant: if no two
users share an email before a `SignUp` call, none do after it, whatever the input and the
store outcomes. A valid signup whose email belongs to a stored user is answered 409 when
the existing-user query succeeds, and leaves the collection as it was whether or not
the query succeeds. A call answered 201 has appended exactly one user, with the email of
the input, which no stored user had; every other call leaves the collection as it was. -/
theorem C4_email_uniqueness (D : Deps) (users : List User)
    (body : Except String SignUpInput) (env : SignUpEnv) :
    (UniqueEmails users → UniqueEmails (SignUp D users body env).2) ∧
    (∀ input, body = .ok input → input.Valid D → (∃ u ∈ users, u.Email = input.Email) →
      (SignUp D users body env).2 = users ∧
      (env.countFails = false → (SignUp D users body env).1 =
        ⟨409, errorBody "A user with this email already exists"⟩)) ∧
    ((SignUp D users body env).1.status = 201 →
      ∃ input u, body = .ok input ∧ u.Email = input.Email ∧
        (∀ v ∈ users, v.Email ≠ input.Email) ∧
        (SignUp D users body env).2 = users ++ [u]) ∧
    ((SignUp D users body env).1.status ≠ 201 → (SignUp D users body env).2 = users) := by
  refine ⟨?_, ?_, ?_, ?_⟩
  · intro hu
    rcases SignUp_cases D users body env with ⟨e, -⟩ | ⟨input, hashed, -, -, hnew, -, -, -, e⟩
    · rw [e]; exact hu
    · rw [e]
      unfold UniqueEmails at hu ⊢
      simp only [List.map_append, List.map_cons, List.map_nil]
      rw [List.nodup_append]
      refine ⟨hu, List.nodup_singleton _, ?_⟩
      rw [List.disjoint_singleton]
      intro hm
      obtain ⟨v, hv, hve⟩ := List.mem_map.mp hm
      exact hnew v hv hve
  · intro input hb hv ⟨u, hu, hue⟩
    rcases SignUp_cases D users body env with ⟨e, -⟩ | ⟨input2, hashed, hb2, -, hnew, -, -, -, -⟩
    · refine ⟨e, ?_⟩
      intro hc
      subst hb
      rw [SignUp_valid D users input env hv, hc]
      cases hcount : CountDocuments users input.Email false with
      | none => simp [CountDocuments] at hcount
      | some n =>
        have hz := CountDocuments_zero_iff users input.Email n hcount
        have hn : n > 0 := by
          by_contra hn
          exact hz.mp hn u hu hue
        simp [hn]
    · rw [hb] at hb2
      cases hb2
      exact absurd hue (hnew u hu)
  · intro hs
    rcases SignUp_cases D users body env with ⟨-, e⟩ | ⟨input, hashed, hb, -, hnew, -, -, -, e⟩
    · exact absurd hs e
    · exact ⟨input, _, hb, rfl, hnew, by rw [e]⟩
  · intro hs
    rcases SignUp_cases D users body env with ⟨e, -⟩ | ⟨input, hashed, -, -, -, -, -, -, e⟩
    · exact e
    · rw [e] at hs; exact absurd rfl hs

/-- C4 amended, at an input: Ann signing up a second time is answered 409 and the
collection still holds one Ann. -/
theorem C4_email_uniqueness_witness :
    UniqueEmails [annUser] ∧ ann.Valid exampleDeps ∧ (∃ u ∈ [annUser], u.Email = ann.Email) ∧
    UniqueEmails (SignUp exampleDeps [annUser] (.ok ann)
      (okEnv "650000000000000000000002" 9)).2 ∧
    (SignUp exampleDeps [annUser] (.ok ann) (okEnv "650000000000000000000002" 9)).1 =
      ⟨409, errorBody "A user with this email already exists"⟩ :=
  ⟨by decide, by decide, by decide,
   (C4_email_uniqueness exampleDeps [annUser] (.ok ann)
      (okEnv "650000000000000000000002" 9)).1 (by decide),
   ((C4_email_uniqueness exampleDeps [annUser] (.ok ann)
      (okEnv "650000000000000000000002" 9)).2.1 ann rfl (by decide) (by decide)).2 rfl⟩


/-- What a valid `LoginInput` satisfies. -/
theorem LoginInput_valid_fields {D : Deps} {i : LoginInput} (h : i.Valid D) :
    (D.isEmail i.Email = true ∧ i.Email ≠ "") ∧ i.Password ≠ "" := by
  unfold LoginInput.Valid LoginInput.fieldErrors at h
  have h2 : emailRequired D i.Email = none := by
    cases c : emailRequired D i.Email with
    | none => rfl
    | some tag => rw [c] at h; simp at h
  have h3 : required i.Password = none := by
    cases c : required i.Password with
    | none => rfl
    | some tag => rw [c] at h; simp at h
  refine ⟨emailRequired_none D _ h2, ?_⟩
  unfold required at h3
  split_ifs at h3 with c
  exact c

/-- The outcome of `Login` on a valid input. -/
theorem Login_valid (D : Deps) (users : List User) (input : LoginInput) (env : LoginEnv)
    (h : input.Valid D) :
    Login D users (.ok input) env =
      match FindOne users input.Email env.findFails with
      | .noDocuments => ⟨401, errorBody "Invalid email or password"⟩
      | .storeError => ⟨401, errorBody "Invalid email or password"⟩
      | .found user =>
        if !D.CompareHashAndPassword user.Password input.Password then
          ⟨401, errorBody "Invalid email or password"⟩
        else if env.jwtSecret = "" then
          ⟨500, errorBody "Server configuration error: JWT secret not set"⟩
        else
          match D.SignedString ⟨user.ID, user.Email, env.nowUnix + 24 * 3600⟩ env.jwtSecret with
          | none => ⟨500, errorBody "Failed to create authentication token"⟩
          | some tokenString => ⟨200, [("token", JsonValue.str tokenString)]⟩ := by
  unfold LoginInput.Valid at h
  unfold Login
  simp only [h]

theorem FindOne_found (users : List User) (email : String) (fails : Bool) (u : User)
    (h : FindOne users email fails = .found u) : u ∈ users ∧ u.Email = email := by
  unfold FindOne at h
  split_ifs at h
  cases c : users.find? (fun u => u.Email == email) with
  | none => rw [c] at h; cases h
  | some v =>
    rw [c] at h
    cases h
    exact ⟨List.mem_of_find?_eq_some c, by simpa using List.find?_some c⟩

theorem FindOne_unknown (users : List User) (email : String) (fails : Bool)
    (h : ∀ v ∈ users, v.Email ≠ email) :
    FindOne users email fails = .noDocuments ∨ FindOne users email fails = .storeError := by
  unfold FindOne
  cases fails with
  | true => right; rfl
  | false =>
    left
    have : users.find? (fun u => u.Email == email) = none := by
      rw [List.find?_eq_none]
      intro v hv
      simpa using h v hv
    simp [this]

/-- C5. For valid login inputs, a login whose email matches no stored user and a login
whose password does not verify against the hash of the stored users with its email are
answered alike: status 401 and the same body, whatever the store outcomes, the clock
and the secret. -/
theorem C5_login_no_enumeration (D : Deps) (users : List User) (unknown known : LoginInput)
    (envU envK : LoginEnv) (hvu : unknown.Valid D) (hvk : known.Valid D)
    (hunknown : ∀ v ∈ users, v.Email ≠ unknown.Email)
    (hwrong : ∀ v ∈ users, v.Email = known.Email →
      D.CompareHashAndPassword v.Password known.Password = false) :
    Login D users (.ok unknown) envU = ⟨401, errorBody "Invalid email or password"⟩ ∧
    Login D users (.ok known) envK = ⟨401, errorBody "Invalid email or password"⟩ ∧
    (Login D users (.ok unknown) envU).status = (Login D users (.ok known) envK).status ∧
    (Login D users (.ok unknown) envU).body = (Login D users (.ok known) envK).body := by
  have h1 : Login D users (.ok unknown) envU = ⟨401, errorBody "Invalid email or password"⟩ := by
    rw [Login_valid D users unknown envU hvu]
    rcases FindOne_unknown users unknown.Email envU.findFails hunknown with e | e <;> rw [e]
  have h2 : Login D users (.ok known) envK = ⟨401, errorBody "Invalid email or password"⟩ := by
    rw [Login_valid D users known envK hvk]
    cases e : FindOne users known.Email envK.findFails with
    | noDocuments => rfl
    | storeError => rfl
    | found u =>
      obtain ⟨hu, hue⟩ := FindOne_found _ _ _ _ e
      simp [hwrong u hu hue]
  exact ⟨h1, h2, by rw [h1, h2], by rw [h1, h2]⟩

/-- C5, at an input: with Ann stored, a login of an unknown address and a login of Ann
with a wrong password get the same answer. -/
theorem C5_login_no_enumeration_witness :
    (⟨"bob@x.com", "secret1"⟩ : LoginInput).Valid exampleDeps ∧
    (⟨"ann@x.com", "wrong-password"⟩ : LoginInput).Valid exampleDeps ∧
    (∀ v ∈ [annUser], v.Email ≠ "bob@x.com") ∧
    (∃ v ∈ [annUser], v.Email = "ann@x.com") ∧
    Login exampleDeps [annUser] (.ok ⟨"bob@x.com", "secret1"⟩) okLoginEnv =
      Login exampleDeps [annUser] (.ok ⟨"ann@x.com", "wrong-password"⟩) okLoginEnv :=
  ⟨by decide, by decide, by decide, by decide,
   ((C5_login_no_enumeration exampleDeps [annUser] ⟨"bob@x.com", "secret1"⟩
      ⟨"ann@x.com", "wrong-password"⟩ okLoginEnv okLoginEnv (by decide) (by decide) (by decide)
      (by decide)).1).trans
    ((C5_login_no_enumeration exampleDeps [annUser] ⟨"bob@x.com", "secret1"⟩
      ⟨"ann@x.com", "wrong-password"⟩ okLoginEnv okLoginEnv (by decide) (by decide) (by decide)
      (by decide)).2.1).symm⟩

/-- The signup half of C6 holds: a failure of the existing-user query or of the insert
is answered 500 and nothing is written. -/
theorem SignUp_store_failure (D : Deps) (users : List User) (input : SignUpInput)
    (env : SignUpEnv) (hv : input.Valid D)
    (hfail : env.countFails = true ∨
      (env.countFails = false ∧ (∀ v ∈ users, v.Email ≠ input.Email) ∧
        (∃ h, D.GenerateFromPassword input.Password env.salt = some h) ∧
        env.insertFails = true)) :
    (SignUp D users (.ok input) env).1.status = 500 ∧
    (∃ msg, (SignUp D users (.ok input) env).1.body = errorBody msg) ∧
    (SignUp D users (.ok input) env).2 = users := by
  rw [SignUp_valid D users input env hv]
  rcases hfail with hc | ⟨hc, hnew, ⟨h, hg⟩, hi⟩
  · simp [hc, CountDocuments]
  · have hcount : CountDocuments users input.Email false =
        some (users.countP (fun u => u.Email == input.Email)) := by simp [CountDocuments]
    have hz := (CountDocuments_zero_iff users input.Email _ hcount).mpr hnew
    rw [hc, hcount]
    simp [hz, hg, hi, InsertOne]

/-- C6 fails for `Login`: with Ann stored and a valid login of Ann, a driver error of
`FindOne` is answered 401 with the invalid-credentials body, not 500. -/
theorem C6_login_store_failure_is_401 :
    annLogin.Valid exampleDeps ∧ findFailsEnv.findFails = true ∧
    Login exampleDeps [annUser] (.ok annLogin) findFailsEnv =
      ⟨401, errorBody "Invalid email or password"⟩ := by
  decide

/-- C7. With the signing secret empty no login is answered 200 and no response carries
a token, for every collection, input and store outcome; a login that reaches token
issuance (valid input, user found, password accepted) is answered 500 with the
configuration error; and the response is the same whatever the hashing and signing
functions are, so nothing is signed. -/
theorem C7_missing_secret (D : Deps) (users : List User) (body : Except String LoginInput)
    (env : LoginEnv) (hsecret : env.jwtSecret = "") :
    (Login D users body env).status ≠ 200 ∧
    (∀ v, ("token", v) ∉ (Login D users body env).body) ∧
    (∀ input u, body = .ok input → input.Valid D →
      FindOne users input.Email env.findFails = .found u →
      D.CompareHashAndPassword u.Password input.Password = true →
      Login D users body env =
        ⟨500, errorBody "Server configuration error: JWT secret not set"⟩) ∧
    (∀ D2 : Deps, D2.isEmail = D.isEmail →
      D2.CompareHashAndPassword = D.CompareHashAndPassword →
      Login D2 users body env = Login D users body env) := by
  have key : ∃ code msg, code ≠ 200 ∧ Login D users body env = ⟨code, errorBody msg⟩ := by
    cases body with
    | error err => exact ⟨400, err, by decide, rfl⟩
    | ok input =>
      cases c : input.fieldErrors D with
      | cons e es =>
        exact ⟨400, validationMessage "LoginInput" (e :: es), by decide, by simp only [Login, c]⟩
      | nil =>
        rw [Login_valid D users input env c]
        cases e : FindOne users input.Email env.findFails with
        | noDocuments => exact ⟨401, "Invalid email or password", by decide, rfl⟩
        | storeError => exact ⟨401, "Invalid email or password", by decide, rfl⟩
        | found u =>
          cases hc : D.CompareHashAndPassword u.Password input.Password with
          | false => exact ⟨401, "Invalid email or password", by decide, by simp [hc]⟩
          | true =>
            exact ⟨500, "Server configuration error: JWT secret not set", by decide,
              by simp [hc, hsecret]⟩
  refine ⟨?_, ?_, ?_, ?_⟩
  · obtain ⟨code, msg, hc, e⟩ := key
    rw [e]; exact hc
  · obtain ⟨code, msg, hc, e⟩ := key
    intro v
    rw [e]
    simp [errorBody]
  · intro input u hb hv hf hc
    subst hb
    rw [Login_valid D users input env hv, hf]
    simp [hc, hsecret]
  · intro D2 he hcmp
    cases body with
    | error err => rfl
    | ok input =>
      have hfe : input.fieldErrors D2 = input.fieldErrors D := by
        simp only [LoginInput.fieldErrors, emailRequired, he]
      cases c : input.fieldErrors D with
      | cons e es =>
        have c2 : input.fieldErrors D2 = e :: es := by rw [hfe, c]
        simp only [Login, c, c2]
      | nil =>
        have c2 : input.Valid D2 := by rw [LoginInput.Valid, hfe, c]
        rw [Login_valid D users input env c, Login_valid D2 users input env c2, hcmp]
        cases e : FindOne users input.Email env.findFails with
        | noDocuments => rfl
        | storeError => rfl
        | found u =>
          cases hc : D.CompareHashAndPassword u.Password input.Password with
          | false => simp [hc]
          | true => simp [hc, hsecret]

/-- C7, at an input: with no secret, the login of Ann with her password is answered 500
with the configuration error. -/
theorem C7_missing_secret_witness :
    noSecretEnv.jwtSecret = "" ∧
    Login exampleDeps [annUser] (.ok annLogin) noSecretEnv =
      ⟨500, errorBody "Server configuration error: JWT secret not set"⟩ :=
  ⟨rfl,
   (C7_missing_secret exampleDeps [annUser] (.ok annLogin) noSecretEnv rfl).2.2.1
     annLogin annUser rfl (by decide) (by decide) (by decide)⟩


/-- C8 as stated fails for a valid input whose password bcrypt refuses: with a password
of 73 characters, an empty collection and every store operation succeeding, the signup
is answered 500 and nothing is stored. -/
theorem C8_counterexample :
    annLongPassword.Valid exampleDeps ∧
    (∀ v ∈ ([] : List User), v.Email ≠ annLongPassword.Email) ∧
    (okEnv "650000000000000000000001" 7).countFails = false ∧
    (okEnv "650000000000000000000001" 7).insertFails = false ∧
    SignUp exampleDeps [] (.ok annLongPassword) (okEnv "650000000000000000000001" 7) =
      (⟨500, errorBody "Failed to hash password"⟩, []) := by
  decide

/-- C8, amended. For a valid signup input whose email is not in the collection, with the
store operations succeeding, the hashing of the password succeeding and a non-empty
signing secret: `SignUp` answers 201 with exactly the fields id, name, email, createdAt, updatedAt (name
and email those of the input) and no password field, and a `Login` with the same email
and password on the resulting collection answers 200 with a non-empty token. -/
theorem C8_round_trip (D : Deps) (users : List User) (input : SignUpInput) (env : SignUpEnv)
    (lenv : LoginEnv) (hashed : String)
    (hvalid : input.Valid D) (hnew : ∀ v ∈ users, v.Email ≠ input.Email)
    (hcount : env.countFails = false) (hinsert : env.insertFails = false)
    (hfind : lenv.findFails = false) (hsecret : lenv.jwtSecret ≠ "")
    (hhash : D.GenerateFromPassword input.Password env.salt = some hashed) :
    (SignUp D users (.ok input) env).1.status = 201 ∧
    (SignUp D users (.ok input) env).1.body =
      [("id", JsonValue.str env.newID), ("name", JsonValue.str input.Name),
       ("email", JsonValue.str input.Email), ("createdAt", JsonValue.time env.createdAt),
       ("updatedAt", JsonValue.time env.updatedAt)] ∧
    (∀ v, ("password", v) ∉ (SignUp D users (.ok input) env).1.body) ∧
    (∃ tok, tok ≠ "" ∧
      Login D (SignUp D users (.ok input) env).2 (.ok ⟨input.Email, input.Password⟩) lenv =
        ⟨200, [("token", JsonValue.str tok)]⟩) := by
  have hcd : CountDocuments users input.Email false =
      some (users.countP (fun u => u.Email == input.Email)) := by simp [CountDocuments]
  have hz := (CountDocuments_zero_iff users input.Email _ hcd).mpr hnew
  have e : SignUp D users (.ok input) env =
      (⟨201, User.toJSON ⟨env.newID, input.Name, input.Email, hashed, env.createdAt,
          env.updatedAt⟩⟩,
        users ++ [⟨env.newID, input.Name, input.Email, hashed, env.createdAt,
          env.updatedAt⟩]) := by
    rw [SignUp_valid D users input env hvalid, hcount, hcd]
    simp [hz, hhash, hinsert, InsertOne]
  obtain ⟨-, ⟨b1, b2⟩, ⟨c1, -⟩⟩ := SignUpInput_valid_fields hvalid
  have hlv : (⟨input.Email, input.Password⟩ : LoginInput).Valid D := by
    simp [LoginInput.Valid, LoginInput.fieldErrors, emailRequired, required, b1, b2, c1]
  have hf : FindOne (users ++ [⟨env.newID, input.Name, input.Email, hashed, env.createdAt,
      env.updatedAt⟩]) input.Email false =
      .found ⟨env.newID, input.Name, input.Email, hashed, env.createdAt, env.updatedAt⟩ := by
    have h0 : users.find? (fun u => u.Email == input.Email) = none := by
      rw [List.find?_eq_none]
      intro v hv
      simpa using hnew v hv
    simp [FindOne, List.find?_append, h0]
  have hcmp := D.compare_generated _ _ _ hhash
  obtain ⟨tok, ht, htne⟩ :=
    D.signed_nonempty ⟨env.newID, input.Email, lenv.nowUnix + 24 * 3600⟩ _ hsecret
  refine ⟨by rw [e], by rw [e]; rfl, ?_, tok, htne, ?_⟩
  · intro v
    rw [e]
    simp [User.toJSON]
  · rw [e, Login_valid D _ _ lenv hlv]
    simp only [hfind, hf]
    simp [hcmp, hsecret, ht]

/-- C8 amended, at the input of the design document: Ann signs up on an empty collection
and then logs in with the same credentials. -/
theorem C8_round_trip_witness :
    ann.Valid exampleDeps ∧
    (SignUp exampleDeps [] (.ok ann) (okEnv "650000000000000000000001" 7)).1.status = 201 ∧
    (∃ tok, tok ≠ "" ∧
      Login exampleDeps (SignUp exampleDeps [] (.ok ann) (okEnv "650000000000000000000001" 7)).2
        (.ok ⟨ann.Email, ann.Password⟩) okLoginEnv = ⟨200, [("token", JsonValue.str tok)]⟩) :=
  ⟨by decide,
   (C8_round_trip exampleDeps [] ann (okEnv "650000000000000000000001" 7) okLoginEnv
      "$2a$10$secret1" (by decide) (by decide) rfl rfl rfl (by decide) (by decide)).1,
   (C8_round_trip exampleDeps [] ann (okEnv "650000000000000000000001" 7) okLoginEnv
      "$2a$10$secret1" (by decide) (by decide) rfl rfl rfl (by decide) (by decide)).2.2.2⟩

/-- Run alone, the two steps of a `SignUp` call are the handler `SignUp`. -/
theorem runSchedule_sequential (D : Deps) (users : List User)
    (body : Except String SignUpInput) (env : SignUpEnv) (b : SignUpTask) :
    runSchedule D [false, false] (.start body env, b, users) =
      (.done (SignUp D users body env).1, b, (SignUp D users body env).2) := by
  cases body with
  | error err => rfl
  | ok input =>
    simp only [runSchedule, SignUpTask.step, SignUp]
    cases input.fieldErrors D with
    | cons e es => rfl
    | nil =>
      simp only
      cases CountDocuments users input.Email env.countFails with
      | none => rfl
      | some n =>
        simp only
        by_cases hn : n > 0
        · simp only [hn, if_true]
        · simp only [hn, if_false]
          cases D.GenerateFromPassword input.Password env.salt with
          | none => rfl
          | some hashed =>
            simp only
            cases InsertOne users _ env.insertFails <;> rfl

/-- C10 fails on the code. Two valid signups of Ann on an empty collection, scheduled so
that both run `CountDocuments` before either runs `InsertOne`, are both answered 201, and
the collection then holds two users with Ann's email. -/
theorem C10_concurrent_duplicate_signup :
    ann.Valid exampleDeps ∧
    runSchedule exampleDeps [false, true, false, true]
      (.start (.ok ann) (okEnv "650000000000000000000001" 7),
       .start (.ok ann) (okEnv "650000000000000000000002" 8), []) =
      (.done ⟨201, User.toJSON ⟨"650000000000000000000001", "Ann", "ann@x.com",
          "$2a$10$secret1", 7, 7⟩⟩,
       .done ⟨201, User.toJSON ⟨"650000000000000000000002", "Ann", "ann@x.com",
          "$2a$10$secret1", 8, 8⟩⟩,
       [⟨"650000000000000000000001", "Ann", "ann@x.com", "$2a$10$secret1", 7, 7⟩,
        ⟨"650000000000000000000002", "Ann", "ann@x.com", "$2a$10$secret1", 8, 8⟩]) ∧
    ¬ UniqueEmails
      [⟨"650000000000000000000001", "Ann", "ann@x.com", "$2a$10$secret1", 7, 7⟩,
       ⟨"650000000000000000000002", "Ann", "ann@x.com", "$2a$10$secret1", 8, 8⟩] :=
  ⟨by decide, rfl, by decide⟩

end GoAuthApi
